import Mathlib

/-!
Verification of the client-side session / permission authority of the
`access-control-web` front-end: a shallow embedding of the Zustand auth
store (`src/shared/stores/auth.store.ts`), the auth hook
(`src/shared/hooks/use-auth.ts`, current revision), and the
permission-service pagination (`PermissionService.getPermissions`),
together with proofs of the specified session and permission properties.
-/

namespace ACW

/-! ## Data model (src/shared/types/auth.types.ts) -/

/-- Tenant context carried by the authenticated user. -/
structure Tenant where
  id : String
  name : String
  slug : String
  customDomain : Option String
  deriving DecidableEq, Repr

/-- `AuthUser` from auth.types.ts: immutable user snapshot built at login time. -/
structure AuthUser where
  id : String
  email : String
  username : String
  fullName : String
  tenant : Tenant
  permissions : List String
  roles : List String
  accessGroups : List String
  deriving DecidableEq, Repr

/-- `AuthState` from auth.types.ts: the in-memory session record.
`Option` models the `| null` fields. -/
structure AuthState where
  isAuthenticated : Bool
  user : Option AuthUser
  token : Option String
  isLoading : Bool
  deriving DecidableEq, Repr

/-- The Anonymous session state. -/
def anonymousState : AuthState :=
  { isAuthenticated := false, user := none, token := none, isLoading := false }

/-- JavaScript truthiness of a `string | null` value: `null` and the empty
string are falsy, every other string is truthy.  The store tests token
existence with bare truthiness (`storedToken && ...`, `!!token`). -/
def truthy : Option String → Bool
  | none => false
  | some s => !s.isEmpty

/-! ## Durable storage (the auth-storage utility module) -/

/-- Modelled from the spec: the auth-storage utility module
(`src/shared/utils/auth-storage`, imported by auth.store.ts but absent from
the sources) provides `getToken`, `getStoredUser`, `setToken`,
`setRefreshToken`, `setStoredUser`, `clearAuth` and `isTokenValid` over a
durable key-value store persisting the token, refresh token, user record
and a stored expiry timestamp. -/
structure AuthStorage where
  token : Option String
  refreshToken : Option String
  user : Option AuthUser
  tokenExpiry : Option Nat
  deriving DecidableEq, Repr

/-- Storage with no persisted session. -/
def emptyStorage : AuthStorage :=
  { token := none, refreshToken := none, user := none, tokenExpiry := none }

namespace Storage

/-- Modelled from the spec: read the persisted access token. -/
def getToken (st : AuthStorage) : Option String := st.token

/-- Modelled from the spec: read the persisted user record. -/
def getStoredUser (st : AuthStorage) : Option AuthUser := st.user

/-- Modelled from the spec: persist the access token. -/
def setToken (t : String) (st : AuthStorage) : AuthStorage := { st with token := some t }

/-- Modelled from the spec: persist the refresh token. -/
def setRefreshToken (t : String) (st : AuthStorage) : AuthStorage :=
  { st with refreshToken := some t }

/-- Modelled from the spec: persist the user record. -/
def setStoredUser (u : AuthUser) (st : AuthStorage) : AuthStorage := { st with user := some u }

/-- Modelled from the spec: remove every persisted authentication datum. -/
def clearAuth (_ : AuthStorage) : AuthStorage := emptyStorage

/-- Modelled from the spec: the token is valid when a stored expiry
timestamp lies strictly in the future of the current time. -/
def isTokenValid (now : Nat) (st : AuthStorage) : Bool :=
  match st.tokenExpiry with
  | some e => decide (now < e)
  | none => false

end Storage

/-! ## The legacy permission queries (use-auth.ts, current revision) -/

/-- `hasPermission` from use-auth.ts: deprecated, kept for compatibility,
always returns `false`. -/
def hasPermission (_permission : String) : Bool := false

/-- `hasRole` from use-auth.ts: deprecated, kept for compatibility, always
returns `false`. -/
def hasRole (_role : String) : Bool := false

/-- `hasAnyPermission` from use-auth.ts: deprecated, kept for
compatibility, always returns `false`. -/
def hasAnyPermission (_permissions : List String) : Bool := false

/-- `hasAllPermissions` from use-auth.ts: deprecated, kept for
compatibility, always returns `false`. -/
def hasAllPermissions (_permissions : List String) : Bool := false

/-! ## Store actions (auth.store.ts) -/

namespace Store

/-- `setToken` store action (auth.store.ts line 188):
`set({ token, isAuthenticated: !!token })` — a partial zustand `set`, so
`user` and `isLoading` are untouched. -/
def setToken (s : AuthState) (token : Option String) : AuthState :=
  { s with token := token, isAuthenticated := truthy token }

/-- `setUser` store action (auth.store.ts line 184). -/
def setUser (s : AuthState) (user : Option AuthUser) : AuthState :=
  { s with user := user }

/-- `setLoading` store action (auth.store.ts line 192). -/
def setLoading (s : AuthState) (isLoading : Bool) : AuthState :=
  { s with isLoading := isLoading }

end Store

/-! ## The token-expired event channel (DOM EventTarget semantics)

`initialize` registers, and `logout` tries to remove, handlers for the
`auth:token-expired` window event.  DOM listeners are identified by
function identity; every evaluation of an arrow-function expression
produces a fresh, distinct function object.  We model function identity
with numeric ids drawn from a counter: each closure creation takes the
next id. -/

/-- The registered listeners (in registration order) of the
`auth:token-expired` channel plus a counter supplying fresh closure
identities. -/
structure ListenerState where
  listeners : List Nat
  nextId : Nat
  deriving DecidableEq, Repr

/-- A channel with no registered listeners. -/
def emptyListeners : ListenerState := { listeners := [], nextId := 0 }

/-- `window.addEventListener`: a listener already registered under the same
identity is not added twice. -/
def addEventListener (b : ListenerState) (id : Nat) : ListenerState :=
  if id ∈ b.listeners then b else { b with listeners := b.listeners ++ [id] }

/-- `window.removeEventListener`: removes the listener with exactly this
function identity, if registered; otherwise a no-op. -/
def removeEventListener (b : ListenerState) (id : Nat) : ListenerState :=
  { b with listeners := b.listeners.filter (fun l => l ≠ id) }

/-- Evaluating a function expression: yields a fresh identity and advances
the counter. -/
def freshClosure (b : ListenerState) : Nat × ListenerState :=
  (b.nextId, { b with nextId := b.nextId + 1 })

/-! ## Store actions with effects (auth.store.ts) -/

/-- Result of `initialize()`: the session state written by `set`, the
durable storage afterwards, the listener channel afterwards, and the
number of network (httpClient) calls issued. -/
structure InitResult where
  state : AuthState
  storage : AuthStorage
  browser : ListenerState
  networkCalls : Nat
  deriving DecidableEq, Repr

namespace Store

/-- The `try` block of `initialize()` (auth.store.ts lines 56-89): read the
persisted token and user, compute `tokenValid`, clear storage when a
persisted pair exists with an invalid token, `set` the initial state, then
define a fresh `handleTokenExpired` closure and re-register it
(`removeEventListener` with the fresh closure, then `addEventListener`).
The body issues no httpClient call. -/
def initBody (st : AuthStorage) (now : Nat) (b : ListenerState) : InitResult :=
  let storedToken := Storage.getToken st
  let storedUser := Storage.getStoredUser st
  let tokenValid := truthy storedToken && storedUser.isSome && Storage.isTokenValid now st
  let initialState : AuthState :=
    { isAuthenticated := tokenValid
      user := if tokenValid then storedUser else none
      token := if tokenValid then storedToken else none
      isLoading := false }
  let st1 := if truthy storedToken && storedUser.isSome && !tokenValid
    then Storage.clearAuth st else st
  let handle := freshClosure b
  let b1 := addEventListener (removeEventListener handle.2 handle.1) handle.1
  { state := initialState, storage := st1, browser := b1, networkCalls := 0 }

/-- `initialize()` as a fallible computation: `readFails` expresses a
storage layer whose read throws (unreadable / corrupt data), raising the
error the surrounding `catch` must absorb. -/
def initTry (st : AuthStorage) (readFails : Bool) (now : Nat) (b : ListenerState) :
    Except String InitResult :=
  if readFails then Except.error "storage read failed"
  else Except.ok (initBody st now b)

/-- `initialize()` (auth.store.ts lines 53-99): the `catch` branch absorbs
any error from the body and `set`s the Anonymous state. -/
def init (st : AuthStorage) (readFails : Bool) (now : Nat) (b : ListenerState) :
    InitResult :=
  match initTry st readFails now b with
  | Except.ok r => r
  | Except.error _ =>
      { state := anonymousState, storage := st, browser := b, networkCalls := 0 }

/-- Outcome of the `POST /login` call: either a rejection (`!succeeded` or
missing `data`) or the token pair. -/
inductive LoginNetResult where
  | rejected
  | accepted (accessToken refreshToken : String)
  deriving DecidableEq, Repr

/-- Outcome of the follow-up `GET /me` call: any thrown error, failure
envelope or missing `data` collapses to `failed`. -/
inductive ProfileNetResult where
  | failed
  | fetched (u : AuthUser)
  deriving DecidableEq, Repr

/-- Result of `login()`: whether the call rethrew, the session state
afterwards, and the durable storage afterwards. -/
structure LoginResult where
  threw : Bool
  state : AuthState
  storage : AuthStorage
  deriving DecidableEq, Repr

/-- `login()` (auth.store.ts lines 101-165).  `set({isLoading:true})` and
`set({isLoading:false})` are partial zustand `set`s merging into the
previous state.  On token acceptance the access and refresh tokens are
persisted before the profile fetch; if the profile fetch fails the inner
`catch` runs `clearAuth()` and rethrows, and the outer `catch` then runs
`set({isLoading:false})`, `clearAuth()` and rethrows.  On profile success
the full Authenticated state is `set` and the user persisted. -/
def login (s : AuthState) (st : AuthStorage) (lr : LoginNetResult) (pr : ProfileNetResult) :
    LoginResult :=
  let s1 := { s with isLoading := true }
  match lr with
  | LoginNetResult.rejected =>
      { threw := true, state := { s1 with isLoading := false }
        storage := Storage.clearAuth st }
  | LoginNetResult.accepted accessToken refreshToken =>
      let st1 := Storage.setRefreshToken refreshToken (Storage.setToken accessToken st)
      match pr with
      | ProfileNetResult.failed =>
          { threw := true, state := { s1 with isLoading := false }
            storage := Storage.clearAuth (Storage.clearAuth st1) }
      | ProfileNetResult.fetched u =>
          { threw := false
            state := { isAuthenticated := true, user := some u
                       token := some accessToken, isLoading := false }
            storage := Storage.setStoredUser u st1 }

/-- Result of `logout()`. -/
structure LogoutResult where
  state : AuthState
  storage : AuthStorage
  browser : ListenerState
  deriving DecidableEq, Repr

/-- `logout()` (auth.store.ts lines 167-182): `removeEventListener` with a
freshly created inline arrow function (which matches no registered
listener), `clearAuth()`, then `set` of the full Anonymous state. -/
def logout (_s : AuthState) (st : AuthStorage) (b : ListenerState) : LogoutResult :=
  let handle := freshClosure b
  let b1 := removeEventListener handle.2 handle.1
  { state := anonymousState, storage := Storage.clearAuth st, browser := b1 }

/-- Raising one `auth:token-expired` event: the dispatch iterates over the
registered listeners; every registered `handleTokenExpired` closure calls
`get().logout()`.  `logoutCalls` counts the `logout()` invocations. -/
def dispatchTokenExpired (s : AuthState) (st : AuthStorage) (b : ListenerState) :
    AuthState × AuthStorage × ListenerState × Nat :=
  b.listeners.foldl
    (fun acc _ =>
      let r := logout acc.1 acc.2.1 acc.2.2.1
      (r.state, r.storage, r.browser, acc.2.2.2 + 1))
    (s, st, b, 0)

end Store

/-! ## The permission evaluator (the store behind `usePermissions`) -/

/-- A module+operation grant as consumed by the permission evaluator. -/
structure Grant where
  moduleKey : String
  operation : String
  deriving DecidableEq, Repr

/-- Modelled from the spec: the permission store backing `usePermissions`
(`src/shared/stores/permission.store.ts`, imported by use-auth.ts but
absent from the sources).  §4.2: `hasAccess(moduleKey, operation?)` is
`false` when no user is authenticated; with an operation it requires a
grant matching both module key and operation; without one, any grant
referencing the module key suffices.  `grantsOf` is the backend-defined
extraction of the flat grant list from the authenticated user record. -/
def hasAccess (grantsOf : AuthUser → List Grant) (s : AuthState)
    (moduleKey : String) (operation : Option String) : Bool :=
  match s.user with
  | none => false
  | some u =>
    match operation with
    | none => (grantsOf u).any (fun g => g.moduleKey == moduleKey)
    | some op => (grantsOf u).any (fun g => g.moduleKey == moduleKey && g.operation == op)

/-- Modelled from the spec: `getAccessibleModules()` returns the distinct
module keys appearing anywhere in the user's grants; the empty set when
unauthenticated. -/
def getAccessibleModules (grantsOf : AuthUser → List Grant) (s : AuthState) : List String :=
  match s.user with
  | none => []
  | some u => ((grantsOf u).map Grant.moduleKey).eraseDups

/-! ## PermissionService pagination (src/unnamed/part_001) -/

/-- `Permission` from permission.types.ts. -/
structure Permission where
  id : String
  name : String
  description : Option String
  code : Option String
  tenantId : Option String
  isActive : Bool
  createdAt : String
  updatedAt : Option String
  deriving DecidableEq, Repr

/-- The pagination-relevant fields of `QueryParams`. -/
structure QueryParams where
  page : Option Nat
  limit : Option Nat
  deriving DecidableEq, Repr

/-- `PaginatedResponse` as built by `PermissionService.getPermissions`. -/
structure PaginatedResponse (α : Type) where
  data : List α
  totalCount : Nat
  pageNumber : Nat
  pageSize : Nat
  totalPages : Nat
  hasPreviousPage : Bool
  hasNextPage : Bool
  deriving DecidableEq, Repr

namespace PermissionService

/-- The frontend pagination performed by `PermissionService.getPermissions`
(part_001 lines 100-120) on the permission list extracted from the API
response.  JavaScript `params?.limit || 10` and `params?.page || 1` treat a
missing params object, a missing field and `0` alike as falsy, and
`Math.ceil(totalCount / pageSize)` on naturals is `(totalCount + pageSize
- 1) / pageSize`; `slice(startIndex, endIndex)` is drop-then-take. -/
def getPermissions (permissions : List Permission) (params : Option QueryParams) :
    PaginatedResponse Permission :=
  let pageSize := match Option.bind params QueryParams.limit with
    | some l => if l = 0 then 10 else l
    | none => 10
  let currentPage := match Option.bind params QueryParams.page with
    | some p => if p = 0 then 1 else p
    | none => 1
  let startIndex := (currentPage - 1) * pageSize
  let paginatedPermissions := (permissions.drop startIndex).take pageSize
  let totalCount := permissions.length
  let totalPages := (totalCount + pageSize - 1) / pageSize
  { data := paginatedPermissions
    totalCount := totalCount
    pageNumber := currentPage
    pageSize := pageSize
    totalPages := totalPages
    hasPreviousPage := decide (1 < currentPage)
    hasNextPage := decide (currentPage < totalPages) }

end PermissionService

/-! ## First sample values used by concrete witnesses -/

/-- A concrete user record for witnesses. -/
def sampleUser : AuthUser :=
  { id := "u-1", email := "a@b.c", username := "alice", fullName := "Alice A"
    tenant := { id := "t-1", name := "Acme", slug := "acme", customDomain := none }
    permissions := [], roles := [], accessGroups := [] }

/-- A concrete permission record builder for the pagination witness. -/
def mkPerm (i : String) : Permission :=
  { id := i, name := i, description := none, code := none, tenantId := none
    isActive := true, createdAt := "2024-01-01", updatedAt := none }

/-- A concrete permission list for the pagination witness. -/
def samplePerms : List Permission := [mkPerm "p1", mkPerm "p2", mkPerm "p3"]

/-! ## Claims -/

/-- C1 counterexample: a `login()` call made while the session is
Authenticated, whose token acquisition succeeds and whose profile fetch
fails, throws — but the outer catch only runs a partial
`set({isLoading:false})`, so afterward `isAuthenticated` is still `true`
and `user` is still present, contradicting the claimed
all-or-nothing outcome for every such `login()` call. -/
theorem c1_counterexample :
    (Store.login
        { isAuthenticated := true, user := some sampleUser
          token := some "old-token", isLoading := false }
        emptyStorage (Store.LoginNetResult.accepted "new-token" "refresh")
        Store.ProfileNetResult.failed).state.isAuthenticated = true ∧
    (Store.login
        { isAuthenticated := true, user := some sampleUser
          token := some "old-token", isLoading := false }
        emptyStorage (Store.LoginNetResult.accepted "new-token" "refresh")
        Store.ProfileNetResult.failed).state.user = some sampleUser := by
  exact ⟨rfl, rfl⟩

/-- C1 (amended): for every `login()` call made while the session is
Anonymous (`isAuthenticated=false`, `user` and `token` absent — the only
state from which login is offered), if token acquisition succeeds and the
profile fetch fails then `login()` throws and afterward the session is the
Anonymous state (`isAuthenticated=false`, `user` absent, `token` absent,
`isLoading=false`) and durable storage holds no residual token or user. -/
theorem c1_all_or_nothing (s : AuthState) (st : AuthStorage) (tok rtok : String)
    (hAuth : s.isAuthenticated = false) (hUser : s.user = none) (hTok : s.token = none) :
    (Store.login s st (Store.LoginNetResult.accepted tok rtok)
        Store.ProfileNetResult.failed).threw = true ∧
    (Store.login s st (Store.LoginNetResult.accepted tok rtok)
        Store.ProfileNetResult.failed).state = anonymousState ∧
    (Store.login s st (Store.LoginNetResult.accepted tok rtok)
        Store.ProfileNetResult.failed).storage = emptyStorage := by
  obtain ⟨a, u, t, l⟩ := s
  simp only at hAuth hUser hTok
  subst hAuth hUser hTok
  exact ⟨rfl, rfl, rfl⟩

/-- C1 witness: the amended theorem applied at a concrete Anonymous
session. -/
theorem c1_witness :
    (Store.login anonymousState emptyStorage
        (Store.LoginNetResult.accepted "tk" "rt")
        Store.ProfileNetResult.failed).threw = true ∧
    (Store.login anonymousState emptyStorage
        (Store.LoginNetResult.accepted "tk" "rt")
        Store.ProfileNetResult.failed).state = anonymousState ∧
    (Store.login anonymousState emptyStorage
        (Store.LoginNetResult.accepted "tk" "rt")
        Store.ProfileNetResult.failed).storage = emptyStorage :=
  c1_all_or_nothing anonymousState emptyStorage "tk" "rt" rfl rfl rfl

/-- The state of the token-expired channel after the first `initialize()`
on a fresh process. -/
def c2FirstInit : InitResult := Store.init emptyStorage false 0 emptyListeners

/-- The state after a second `initialize()` in sequence. -/
def c2SecondInit : InitResult := Store.init c2FirstInit.storage false 0 c2FirstInit.browser

/-- C2: calling `initialize()` twice in sequence leaves two distinct
`handleTokenExpired` closures registered (each call creates a fresh
closure, so its `removeEventListener` never matches the previously
registered one), and raising one `auth:token-expired` signal then invokes
`logout()` twice — not once as the claim states. -/
theorem c2_one_signal_two_logouts :
    c2SecondInit.browser.listeners.length = 2 ∧
    (Store.dispatchTokenExpired c2SecondInit.state c2SecondInit.storage
        c2SecondInit.browser).2.2.2 = 2 := by
  exact ⟨rfl, rfl⟩

/-- C3: if the persisted token and user exist but the token is determined
expired at `initialize()` time, `initialize()` results in the Anonymous
state and durable storage is cleared. -/
theorem c3_expiry_discard (st : AuthStorage) (now : Nat) (b : ListenerState)
    (htok : truthy st.token = true) (huser : st.user.isSome = true)
    (hexp : Storage.isTokenValid now st = false) :
    (Store.init st false now b).state = anonymousState ∧
    (Store.init st false now b).storage = emptyStorage := by
  simp [Store.init, Store.initTry, Store.initBody, Storage.getToken,
    Storage.getStoredUser, Storage.clearAuth, anonymousState, htok, huser, hexp]

/-- C3 witness: a persisted session whose stored expiry timestamp (3) is in
the past of the current time (5). -/
theorem c3_witness :
    (Store.init
        { token := some "tok", refreshToken := none, user := some sampleUser
          tokenExpiry := some 3 } false 5 emptyListeners).state = anonymousState ∧
    (Store.init
        { token := some "tok", refreshToken := none, user := some sampleUser
          tokenExpiry := some 3 } false 5 emptyListeners).storage = emptyStorage :=
  c3_expiry_discard
    { token := some "tok", refreshToken := none, user := some sampleUser
      tokenExpiry := some 3 } 5 emptyListeners (by decide) (by decide) (by decide)

/-- C4: if the persisted token and user exist and the token is still valid,
`initialize()` restores the Authenticated state with exactly the persisted
user and token, `isLoading=false`, leaves storage untouched and issues no
network call. -/
theorem c4_valid_restore (st : AuthStorage) (now : Nat) (b : ListenerState)
    (htok : truthy st.token = true) (huser : st.user.isSome = true)
    (hval : Storage.isTokenValid now st = true) :
    (Store.init st false now b).state =
      { isAuthenticated := true, user := st.user, token := st.token, isLoading := false } ∧
    (Store.init st false now b).storage = st ∧
    (Store.init st false now b).networkCalls = 0 := by
  simp [Store.init, Store.initTry, Store.initBody, Storage.getToken,
    Storage.getStoredUser, htok, huser, hval]

/-- C4 witness: a persisted session whose stored expiry timestamp (9) is in
the future of the current time (5) is restored verbatim. -/
theorem c4_witness :
    (Store.init
        { token := some "tok", refreshToken := none, user := some sampleUser
          tokenExpiry := some 9 } false 5 emptyListeners).state =
      { isAuthenticated := true, user := some sampleUser, token := some "tok"
        isLoading := false } ∧
    (Store.init
        { token := some "tok", refreshToken := none, user := some sampleUser
          tokenExpiry := some 9 } false 5 emptyListeners).storage =
      { token := some "tok", refreshToken := none, user := some sampleUser
        tokenExpiry := some 9 } ∧
    (Store.init
        { token := some "tok", refreshToken := none, user := some sampleUser
          tokenExpiry := some 9 } false 5 emptyListeners).networkCalls = 0 :=
  c4_valid_restore
    { token := some "tok", refreshToken := none, user := some sampleUser
      tokenExpiry := some 9 } 5 emptyListeners (by decide) (by decide) (by decide)

/-- C5: `logout()` on an Anonymous session yields the Anonymous session
again (and, being a total function of the model, raises no error), and
for every starting state a second `logout()` leaves the session state and
durable storage of the first unchanged. -/
theorem c5_logout_idempotent (s : AuthState) (st : AuthStorage) (b : ListenerState) :
    (Store.logout anonymousState st b).state = anonymousState ∧
    (Store.logout (Store.logout s st b).state (Store.logout s st b).storage
        (Store.logout s st b).browser).state = (Store.logout s st b).state ∧
    (Store.logout (Store.logout s st b).state (Store.logout s st b).storage
        (Store.logout s st b).browser).storage = (Store.logout s st b).storage :=
  ⟨rfl, rfl, rfl⟩

/-- C6: `initialize()` absorbs every storage failure — for every storage
outcome it completes with `isLoading=false`, and whenever the body threw
(unreadable or corrupt storage) the resulting session is exactly the
Anonymous state, never an error state. -/
theorem c6_absorbs_storage_errors (st : AuthStorage) (readFails : Bool) (now : Nat)
    (b : ListenerState) :
    (Store.init st readFails now b).state.isLoading = false ∧
    (∀ e, Store.initTry st readFails now b = Except.error e →
      (Store.init st readFails now b).state = anonymousState) := by
  cases readFails with
  | false =>
      refine ⟨rfl, fun e h => ?_⟩
      simp [Store.initTry] at h
  | true => exact ⟨rfl, fun e h => rfl⟩

/-- C6 witness: a failing storage read at a concrete input resolves to the
Anonymous state with `isLoading=false`. -/
theorem c6_witness :
    (Store.init emptyStorage true 0 emptyListeners).state.isLoading = false ∧
    (Store.init emptyStorage true 0 emptyListeners).state = anonymousState :=
  ⟨(c6_absorbs_storage_errors emptyStorage true 0 emptyListeners).1,
   (c6_absorbs_storage_errors emptyStorage true 0 emptyListeners).2
     "storage read failed" rfl⟩

/-- C7: the legacy permission queries of use-auth.ts — `hasPermission`,
`hasRole`, `hasAnyPermission`, `hasAllPermissions` — return `false` for
every input; they are callable but never grant access (they read no
session state at all). -/
theorem c7_legacy_always_false (p r : String) (ps qs : List String) :
    hasPermission p = false ∧ hasRole r = false ∧
    hasAnyPermission ps = false ∧ hasAllPermissions qs = false :=
  ⟨rfl, rfl, rfl, rfl⟩

/-- C8: for every module key and optional operation, an unauthenticated
session answers `hasAccess = false` and `getAccessibleModules = ∅`; and
the session produced by `logout()` (from any starting state) immediately
gives these same unauthenticated answers. -/
theorem c8_unauthenticated_denies (grantsOf : AuthUser → List Grant)
    (s : AuthState) (hs : s.user = none) (mk : String) (op : Option String)
    (s0 : AuthState) (st : AuthStorage) (b : ListenerState) :
    hasAccess grantsOf s mk op = false ∧
    getAccessibleModules grantsOf s = [] ∧
    hasAccess grantsOf (Store.logout s0 st b).state mk op = false ∧
    getAccessibleModules grantsOf (Store.logout s0 st b).state = [] := by
  refine ⟨?_, ?_, rfl, rfl⟩ <;> simp [hasAccess, getAccessibleModules, hs]

/-- C8 witness: concrete unauthenticated queries, including right after a
`logout()` from an Authenticated session holding a grant. -/
theorem c8_witness :
    hasAccess (fun _ => [{ moduleKey := "X", operation := "READ" }]) anonymousState
      "ACCESS_GROUP" (some "CREATE") = false ∧
    getAccessibleModules (fun _ => [{ moduleKey := "X", operation := "READ" }])
      anonymousState = [] ∧
    hasAccess (fun _ => [{ moduleKey := "X", operation := "READ" }])
      (Store.logout
        { isAuthenticated := true, user := some sampleUser, token := some "tok"
          isLoading := false } emptyStorage emptyListeners).state
      "ACCESS_GROUP" (some "CREATE") = false ∧
    getAccessibleModules (fun _ => [{ moduleKey := "X", operation := "READ" }])
      (Store.logout
        { isAuthenticated := true, user := some sampleUser, token := some "tok"
          isLoading := false } emptyStorage emptyListeners).state = [] :=
  c8_unauthenticated_denies (fun _ => [{ moduleKey := "X", operation := "READ" }])
    anonymousState rfl "ACCESS_GROUP" (some "CREATE")
    { isAuthenticated := true, user := some sampleUser, token := some "tok"
      isLoading := false } emptyStorage emptyListeners

/-- C9 counterexample: `setToken("")` — an update with a non-null token —
leaves `isAuthenticated = false`, because the store computes
`isAuthenticated` with JavaScript truthiness (`!!token`) and the empty
string is falsy; the claim says `isAuthenticated` becomes true exactly
when the token is non-null. -/
theorem c9_counterexample :
    (Store.setToken anonymousState (some "")).isAuthenticated = false := by
  decide

/-- C9 (amended): `setToken(t)` sets the session token to `t` and sets
`isAuthenticated` to true exactly when `t` is truthy (non-null and
non-empty), leaving `user` and `isLoading` unchanged; in particular,
`setToken` with a non-empty token while `user` is absent yields
`isAuthenticated=true` with `user` absent, so `setToken` alone does not
preserve the invariant that `isAuthenticated` implies both `user` and
`token` are present. -/
theorem c9_setToken_truthiness (s : AuthState) (t : Option String) :
    (Store.setToken s t).token = t ∧
    ((Store.setToken s t).isAuthenticated = true ↔ ∃ str, t = some str ∧ str ≠ "") ∧
    (Store.setToken s t).user = s.user ∧
    (Store.setToken s t).isLoading = s.isLoading ∧
    (Store.setToken anonymousState (some "tok")).isAuthenticated = true ∧
    (Store.setToken anonymousState (some "tok")).user = none := by
  refine ⟨rfl, ?_, rfl, rfl, by decide, rfl⟩
  cases t with
  | none => simp [Store.setToken, truthy]
  | some str =>
      simp only [Store.setToken, truthy, Bool.not_eq_true', Option.some.injEq,
        exists_eq_left']
      rw [Bool.eq_false_iff]
      exact not_congr (String.isEmpty_iff str)

/-- C10: the frontend pagination of `PermissionService.getPermissions`:
for page number `n ≥ 1` and page size `s ≥ 1`, `data` is the slice of the
permission list from index `(n-1)*s` to `n*s` (hence at most `s` items),
`totalCount` is the list length, `totalPages` is `⌈totalCount / s⌉`
(natural ceiling division), `hasPreviousPage` iff `n > 1`, `hasNextPage`
iff `n < totalPages`, and omitted parameters default to `n=1`, `s=10`. -/
theorem c10_pagination (perms : List Permission) (n s : Nat)
    (hn : 1 ≤ n) (hs : 1 ≤ s) :
    (PermissionService.getPermissions perms
        (some { page := some n, limit := some s })).data
      = (perms.take (n * s)).drop ((n - 1) * s) ∧
    (PermissionService.getPermissions perms
        (some { page := some n, limit := some s })).data.length ≤ s ∧
    (PermissionService.getPermissions perms
        (some { page := some n, limit := some s })).totalCount = perms.length ∧
    (PermissionService.getPermissions perms
        (some { page := some n, limit := some s })).totalPages
      = perms.length ⌈/⌉ s ∧
    ((PermissionService.getPermissions perms
        (some { page := some n, limit := some s })).hasPreviousPage = true ↔ 1 < n) ∧
    ((PermissionService.getPermissions perms
        (some { page := some n, limit := some s })).hasNextPage = true ↔
      n < (PermissionService.getPermissions perms
        (some { page := some n, limit := some s })).totalPages) ∧
    PermissionService.getPermissions perms none
      = PermissionService.getPermissions perms (some { page := some 1, limit := some 10 }) := by
  have hn0 : n ≠ 0 := Nat.one_le_iff_ne_zero.mp hn
  have hs0 : s ≠ 0 := Nat.one_le_iff_ne_zero.mp hs
  have hslice : (perms.take (n * s)).drop ((n - 1) * s)
      = (perms.drop ((n - 1) * s)).take s := by
    rw [List.drop_take]
    congr 1
    rw [← Nat.sub_mul]
    have : n - (n - 1) = 1 := by omega
    rw [this, Nat.one_mul]
  refine ⟨?_, ?_, ?_, ?_, ?_, ?_, ?_⟩
  · simp [PermissionService.getPermissions, hn0, hs0, hslice]
  · simp only [PermissionService.getPermissions, Option.bind, hn0, hs0, if_neg hn0,
      if_neg hs0]
    exact le_trans (List.length_take_le _ _) (le_refl s)
  · simp [PermissionService.getPermissions, hn0, hs0]
  · simp [PermissionService.getPermissions, hn0, hs0, Nat.ceilDiv_eq_add_pred_div]
  · simp [PermissionService.getPermissions, hn0, hs0]
  · simp [PermissionService.getPermissions, hn0, hs0]
  · rfl

/-- C10 witness: three permissions, page 2 of size 2, yields the final
one-element page with `totalPages = 2` and correct navigation flags. -/
theorem c10_witness :
    1 ≤ 2 ∧
    (PermissionService.getPermissions samplePerms
        (some { page := some 2, limit := some 2 })).data
      = (samplePerms.take 4).drop 2 ∧
    (PermissionService.getPermissions samplePerms
        (some { page := some 2, limit := some 2 })).totalPages = 3 ⌈/⌉ 2 :=
  ⟨by decide,
   (c10_pagination samplePerms 2 2 (by decide) (by decide)).1,
   (c10_pagination samplePerms 2 2 (by decide) (by decide)).2.2.2.1⟩

end ACW
